import Mathlib

/-
Verification of the testdriver-proxy protocol translator
(src/testdriver_proxy/proxy.py, models.py, config.py).

The translator converts OpenAI-style chat-completion requests into
Anthropic-style backend requests, and backend responses (unary and
streamed) back into OpenAI-style responses.  The definitions below are a
shallow embedding of that code: Python dicts whose keys may be missing
become structures with `Option` fields, Python truthiness tests (`if x:`)
are modelled explicitly, and floats that are only ever copied are
modelled as rationals.
-/

namespace TestdriverProxy

/-- Message role, `Literal["system", "user", "assistant"]` in models.py. -/
inductive Role
  | system
  | user
  | assistant
deriving DecidableEq, Repr

/-- An opaque multimodal content part (`Dict[str, Any]` in models.py).
The proxy never inspects a part's internals, so parts are modelled as
opaque association lists. -/
structure ContentPart where
  fields : List (String × String)
deriving DecidableEq, Repr

/-- The `content: str | List[Dict[str, Any]]` field of `Message`. -/
inductive Content
  | text (s : String)
  | parts (l : List ContentPart)
deriving DecidableEq, Repr

/-- Python truthiness of a content value: a string is truthy iff
non-empty, a list is truthy iff non-empty. -/
def Content.truthy : Content → Bool
  | .text s => s != ""
  | .parts l => !l.isEmpty

/-- `Message` from models.py. -/
structure Message where
  role : Role
  content : Content
  name : Option String := none
deriving DecidableEq, Repr

/-- The `stop: Optional[List[str] | str]` field of the request. -/
inductive StopValue
  | str (s : String)
  | list (l : List String)
deriving DecidableEq, Repr

/-- Python truthiness of a stop value (`if request.stop:` in proxy.py
line 68): an empty string and an empty list are falsy. -/
def StopValue.truthy : StopValue → Bool
  | .str s => s != ""
  | .list l => !l.isEmpty

/-- `ChatCompletionRequest` from models.py.  `Option` fields model JSON
null; the pydantic defaults are kept as Lean default field values.
Floats are modelled as rationals because the proxy only copies them. -/
structure ChatCompletionRequest where
  model : String
  messages : List Message
  temperature : Option Rat := some (7 / 10)
  top_p : Option Rat := some 1
  n : Option Int := some 1
  stream : Option Bool := some false
  stop : Option StopValue := none
  max_tokens : Option Int := none
  presence_penalty : Option Rat := some 0
  frequency_penalty : Option Rat := some 0
  user : Option String := none
deriving DecidableEq, Repr

/-- The slice of `Config` (config.py) that `transform_request` consumes:
only `max_tokens` (default 2000). -/
structure Config where
  max_tokens : Int := 2000
deriving DecidableEq, Repr

/-- The backend request dict built by `transform_request` (proxy.py
lines 52-71).  `Option` fields model dict keys that are only present
when the corresponding `if` in the source fires; `max_tokens` is always
present. -/
structure ZaiRequest where
  model : String
  messages : List Message
  max_tokens : Int
  stream : Option Bool
  system : Option Content := none
  temperature : Option Rat := none
  top_p : Option Rat := none
  stop_sequences : Option (List String) := none
deriving DecidableEq, Repr

/-- The `for msg in request.messages` loop of `transform_request`
(proxy.py lines 44-50): each system-role message overwrites the carried
`system_content` (so the last one wins); every other message is appended
to the output list in order.  Line 48 is the identity on the content in
both branches of its conditional expression. -/
def splitMessages (msgs : List Message) : Option Content × List Message :=
  msgs.foldl
    (fun acc msg =>
      if msg.role = Role.system then (some msg.content, acc.2)
      else (acc.1, acc.2 ++ [msg]))
    (none, [])

/-- Python truthiness of the `system_content` variable at proxy.py line
59 (`if system_content:`): `None` is falsy, a value is as truthy as its
content. -/
def optContentTruthy : Option Content → Bool
  | none => false
  | some c => c.truthy

/-- `transform_request` (proxy.py lines 37-71).  Note the Python
truthiness tests: `request.max_tokens or self.config.max_tokens` falls
back to the config default when `max_tokens` is `None` or `0`;
`if system_content:` drops an empty system content; `if request.stop:`
drops an empty stop string or empty stop list. -/
def transform_request (config : Config) (request : ChatCompletionRequest) :
    ZaiRequest :=
  let sc := splitMessages request.messages
  { model := request.model
    messages := sc.2
    max_tokens :=
      match request.max_tokens with
      | some v => if v = 0 then config.max_tokens else v
      | none => config.max_tokens
    stream := request.stream
    system := if optContentTruthy sc.1 then sc.1 else none
    temperature :=
      match request.temperature with
      | some t => some t
      | none => none
    top_p :=
      match request.top_p with
      | some t => some t
      | none => none
    stop_sequences :=
      match request.stop with
      | some sv =>
          if sv.truthy then
            some (match sv with
                  | .list l => l
                  | .str s => [s])
          else none
      | none => none }

/-- The value the `system_content` loop variable holds after the loop:
the content of the last system-role message, if any. -/
def lastSystemContent (msgs : List Message) : Option Content :=
  msgs.foldl
    (fun s m => if m.role = Role.system then some m.content else s)
    none

/-- Characterization of the message-splitting loop: the first component
is the last system content, the second the non-system messages in their
original order. -/
theorem splitMessages_spec (msgs : List Message) :
    splitMessages msgs
      = (lastSystemContent msgs,
         msgs.filter (fun m => !decide (m.role = Role.system))) := by
  suffices h : ∀ (s0 : Option Content) (acc : List Message),
      msgs.foldl
        (fun acc msg =>
          if msg.role = Role.system then (some msg.content, acc.2)
          else (acc.1, acc.2 ++ [msg]))
        (s0, acc)
      = (msgs.foldl
           (fun s m => if m.role = Role.system then some m.content else s) s0,
         acc ++ msgs.filter (fun m => !decide (m.role = Role.system))) by
    simpa [splitMessages, lastSystemContent] using h none []
  induction msgs with
  | nil => intro s0 acc; simp
  | cons m ms ih =>
      intro s0 acc
      by_cases h : m.role = Role.system
      · simp [List.foldl_cons, List.filter_cons, h, ih]
      · simp [List.foldl_cons, List.filter_cons, h, ih]

/-- The `usage` dict of a backend response; keys may be missing. -/
structure ZaiUsage where
  input_tokens : Option Int := none
  output_tokens : Option Int := none
deriving DecidableEq, Repr

/-- A content block of a backend response; only the keys the proxy reads
(`type`, `text`) are modelled. -/
structure ContentBlock where
  type : Option String := none
  text : Option String := none
deriving DecidableEq, Repr

/-- The backend (Anthropic-style) non-stream response JSON, restricted
to the keys `_non_stream_response` reads (proxy.py lines 109-159). -/
structure ZaiResponse where
  id : Option String := none
  content : Option (List ContentBlock) := none
  stop_reason : Option String := none
  usage : Option ZaiUsage := none
deriving DecidableEq, Repr

/-- `Choice` from models.py. -/
structure Choice where
  index : Int
  message : Message
  finish_reason : Option String := none
deriving DecidableEq, Repr

/-- `Usage` from models.py. -/
structure Usage where
  prompt_tokens : Int
  completion_tokens : Int
  total_tokens : Int
deriving DecidableEq, Repr

/-- `ChatCompletionResponse` from models.py (the constant `object`
field is omitted). -/
structure ChatCompletionResponse where
  id : String
  created : Int
  model : String
  choices : List Choice
  usage : Usage
deriving DecidableEq, Repr

/-- The text-extraction loop of `_non_stream_response` (proxy.py lines
123-127): concatenate, in order, the `text` of every content block whose
`type` is `"text"` (missing `text` defaults to the empty string). -/
def content_text (zai_response : ZaiResponse) : String :=
  match zai_response.content with
  | none => ""
  | some blocks =>
      blocks.foldl
        (fun acc b =>
          if b.type = some "text" then acc ++ b.text.getD "" else acc)
        ""

/-- The `finish_reason_map` dict lookup with default `"stop"` (proxy.py
lines 131-136, repeated at lines 225-230). -/
def finish_reason_map (stop_reason : String) : String :=
  if stop_reason = "end_turn" then "stop"
  else if stop_reason = "max_tokens" then "length"
  else if stop_reason = "stop_sequence" then "stop"
  else "stop"

/-- `_non_stream_response`, from the parsed backend JSON on (proxy.py
lines 109-160).  The wall-clock timestamp and the random uuid fallback
id are passed as parameters; of the inbound request only `model` is
read, so only it is a parameter. -/
def non_stream_response (model : String) (created : Int)
    (fallbackId : String) (zai_response : ZaiResponse) :
    ChatCompletionResponse :=
  let finish_reason := finish_reason_map (zai_response.stop_reason.getD "stop")
  let usage := zai_response.usage.getD {}
  { id := "chatcmpl-" ++ zai_response.id.getD fallbackId
    created := created
    model := model
    choices :=
      [{ index := 0
         message := { role := Role.assistant
                      content := Content.text (content_text zai_response) }
         finish_reason := some finish_reason }]
    usage :=
      { prompt_tokens := usage.input_tokens.getD 0
        completion_tokens := usage.output_tokens.getD 0
        total_tokens := usage.input_tokens.getD 0 + usage.output_tokens.getD 0 } }

/-- The `delta` sub-dict of a backend stream event, restricted to the
keys the proxy reads (`type`, `text`, `stop_reason`). -/
structure ZaiDelta where
  type : Option String := none
  text : Option String := none
  stop_reason : Option String := none
deriving DecidableEq, Repr

/-- The value found under the `delta` key of a stream event when that
key is present: either a JSON object (of which the proxy reads `type`,
`text` and `stop_reason`), or a null/non-object value.  The distinction
matters because `zai_chunk.get("delta", {})` only substitutes `{}` when
the key is missing: a present null or non-object value flows through
and the subsequent `.get(...)` on it raises an uncaught
`AttributeError` (proxy.py lines 217 and 223). -/
inductive DeltaVal
  | obj (d : ZaiDelta)
  | nonObject
deriving DecidableEq, Repr

/-- A parsed backend stream event (the result of `json.loads` at
proxy.py line 204 when it yields a dict), restricted to the keys the
proxy reads. -/
structure ZaiStreamEvent where
  type : Option String := none
  delta : Option DeltaVal := none
deriving DecidableEq, Repr

/-- Classification of one backend stream line, following the branch
structure of the loop body (proxy.py lines 184-254): a blank or
whitespace-only line; a line whose payload (after stripping an optional
`data: ` framing) is the `[DONE]` sentinel; a line starting with
`event: `; a line on which `json.loads` raises `JSONDecodeError`
(caught at line 252); a line of valid JSON that is not an object, on
which `zai_chunk.get("type")` at line 205 raises an uncaught
`AttributeError`; or a line that parses to an event object. -/
inductive StreamLine
  | blank
  | done
  | eventHeader
  | malformed
  | nonObject
  | json (e : ZaiStreamEvent)
deriving DecidableEq, Repr

/-- The `delta` dict placed in an outgoing stream choice; the code only
ever populates `role` and `content`. -/
structure Delta where
  role : Option String := none
  content : Option String := none
deriving DecidableEq, Repr

/-- `StreamChoice` from models.py. -/
structure StreamChoice where
  index : Int
  delta : Delta
  finish_reason : Option String := none
deriving DecidableEq, Repr

/-- `ChatCompletionChunk` from models.py (the constant `object` field
is omitted). -/
structure ChatCompletionChunk where
  id : String
  created : Int
  model : String
  choices : List StreamChoice
deriving DecidableEq, Repr

/-- One frame yielded by `_stream_response`: either the literal
`data: [DONE]` sentinel frame (proxy.py line 192) or a serialized chunk
(line 250). -/
inductive StreamOut
  | sentinel
  | chunk (c : ChatCompletionChunk)
deriving DecidableEq, Repr

/-- Outcome of dispatching one parsed event in the loop body:
`crash` models an uncaught `AttributeError` escaping the generator
(the stream aborts); `skip` models a `continue` without a yield; `emit`
carries the `delta` and `finish_reason` of the chunk yielded at
proxy.py line 250. -/
inductive EventResult
  | crash
  | skip
  | emit (delta : Delta) (finish_reason : Option String)
deriving DecidableEq, Repr

/-- The event-type dispatch of `_stream_response` (proxy.py lines
205-234).  Only `message_stop` skips; `content_block_stop` and every
unrecognized kind fall through all branches and still reach the yield,
with `delta = {}` and no finish reason.  In the `content_block_delta`
and `message_delta` branches, a `delta` key holding a null or
non-object value crashes (`.get` on a non-dict, proxy.py lines 217 and
223), while a missing `delta` key safely defaults to `{}`.  The test
`if stop_reason:` at line 224 is a truthiness test, so an empty stop
reason string produces no finish reason. -/
def handle_event (zai_chunk : ZaiStreamEvent) : EventResult :=
  let event_type := zai_chunk.type
  if event_type = some "content_block_start" then
    .emit { role := some "assistant", content := some "" } none
  else if event_type = some "content_block_delta" then
    match zai_chunk.delta with
    | some DeltaVal.nonObject => .crash
    | some (DeltaVal.obj delta_data) =>
        if delta_data.type = some "text_delta" then
          .emit { content := some (delta_data.text.getD "") } none
        else
          .emit {} none
    | none => .emit {} none
  else if event_type = some "message_delta" then
    match zai_chunk.delta with
    | some DeltaVal.nonObject => .crash
    | some (DeltaVal.obj delta_data) =>
        match delta_data.stop_reason with
        | some r => if r = "" then .emit {} none
                    else .emit {} (some (finish_reason_map r))
        | none => .emit {} none
    | none => .emit {} none
  else if event_type = some "message_stop" then
    .skip
  else
    .emit {} none

/-- The `ChatCompletionChunk` built at proxy.py lines 237-248 from a
dispatch result. -/
def mkChunk (chunk_id : String) (created : Int) (model : String)
    (p : Delta × Option String) : ChatCompletionChunk :=
  { id := chunk_id
    created := created
    model := model
    choices := [{ index := 0, delta := p.1, finish_reason := p.2 }] }

/-- The `async for line in response.aiter_lines()` loop of
`_stream_response` (proxy.py lines 184-254), as a function from the
classified line sequence to the sequence of yielded frames.  `chunk_id`
is fixed once before the loop (line 174); `created` abstracts
`int(time.time())`.  A `[DONE]` line yields the sentinel frame and
breaks; blank lines, `event: ` header lines and `JSONDecodeError`
lines are skipped by `continue`.  A valid-JSON non-object line, or an
event on which the dispatch crashes, raises an uncaught
`AttributeError`: the generator dies, so frames already yielded stand
and no further line produces anything (and no sentinel is emitted). -/
def stream_response (chunk_id : String) (created : Int) (model : String) :
    List StreamLine → List StreamOut
  | [] => []
  | StreamLine.blank :: rest => stream_response chunk_id created model rest
  | StreamLine.done :: _ => [StreamOut.sentinel]
  | StreamLine.eventHeader :: rest => stream_response chunk_id created model rest
  | StreamLine.malformed :: rest => stream_response chunk_id created model rest
  | StreamLine.nonObject :: _ => []
  | StreamLine.json e :: rest =>
      match handle_event e with
      | EventResult.crash => []
      | EventResult.skip => stream_response chunk_id created model rest
      | EventResult.emit d fr =>
          StreamOut.chunk (mkChunk chunk_id created model (d, fr))
            :: stream_response chunk_id created model rest

/-- C3: a null source `temperature` (resp. `top_p`) is omitted from the
backend request — no default substituted — and a present value is copied
unchanged.  Stated as: the backend field equals the source field as an
optional value. -/
theorem temperature_top_p_passthrough (config : Config)
    (request : ChatCompletionRequest) :
    (transform_request config request).temperature = request.temperature ∧
    (transform_request config request).top_p = request.top_p := by
  refine ⟨?_, ?_⟩
  · cases h : request.temperature <;> simp [transform_request, h]
  · cases h : request.top_p <;> simp [transform_request, h]

/-- C4 counterexample: with source `max_tokens = 0` (present and
non-null) the backend request's `max_tokens` is not `0` — Python's
`request.max_tokens or self.config.max_tokens` treats `0` as falsy and
substitutes the configured default, contradicting the claim. -/
theorem max_tokens_zero_counterexample :
    (transform_request {}
        { model := "m", messages := [], max_tokens := some 0 }).max_tokens
      ≠ 0 := by
  decide

/-- C4 amended: the backend `max_tokens` equals the source `max_tokens`
whenever that field is present and non-zero, and equals the configured
default when the field is absent or zero; it is always present (the
field is total in `ZaiRequest`). -/
theorem max_tokens_amended (config : Config)
    (request : ChatCompletionRequest) :
    (request.max_tokens = none ∨ request.max_tokens = some 0 →
        (transform_request config request).max_tokens = config.max_tokens) ∧
    (∀ v : Int, request.max_tokens = some v → v ≠ 0 →
        (transform_request config request).max_tokens = v) := by
  constructor
  · rintro (h | h) <;> simp [transform_request, h]
  · intro v h hv
    simp [transform_request, h, hv]

/-- C4 witness: a concrete request with `max_tokens = 5` translates to a
backend request with `max_tokens = 5`. -/
theorem max_tokens_amended_witness :
    (transform_request {}
        { model := "m", messages := [], max_tokens := some 5 }).max_tokens
      = 5 :=
  (max_tokens_amended {}
      { model := "m", messages := [], max_tokens := some 5 }).2 5 rfl
    (by decide)

/-- C5 counterexample: with `stop` present as the bare empty string the
backend request has no `stop_sequences` field at all (the value is
`none`, not the `[""]` the claim requires), and likewise a present
empty stop sequence is dropped instead of copied — `if request.stop:`
is a truthiness test. -/
theorem stop_empty_string_counterexample :
    ((transform_request {}
        { model := "m", messages := [],
          stop := some (StopValue.str "") }).stop_sequences = none) ∧
    ((transform_request {}
        { model := "m", messages := [],
          stop := some (StopValue.str "") }).stop_sequences ≠ some [""]) ∧
    ((transform_request {}
        { model := "m", messages := [],
          stop := some (StopValue.list []) }).stop_sequences = none) ∧
    ((transform_request {}
        { model := "m", messages := [],
          stop := some (StopValue.list []) }).stop_sequences ≠ some []) := by
  refine ⟨rfl, by decide, rfl, by decide⟩

/-- C5 amended: when `stop` is present and non-empty, a bare string `s`
becomes the one-element sequence `[s]` and a sequence is copied
unchanged, under the field name `stop_sequences`; a present-but-empty
string or empty sequence is omitted. -/
theorem stop_sequences_amended (config : Config)
    (request : ChatCompletionRequest) :
    (∀ s : String, request.stop = some (StopValue.str s) → s ≠ "" →
        (transform_request config request).stop_sequences = some [s]) ∧
    (∀ l : List String, request.stop = some (StopValue.list l) → l ≠ [] →
        (transform_request config request).stop_sequences = some l) ∧
    (request.stop = some (StopValue.str "") →
        (transform_request config request).stop_sequences = none) ∧
    (request.stop = some (StopValue.list []) →
        (transform_request config request).stop_sequences = none) := by
  refine ⟨?_, ?_, ?_, ?_⟩
  · intro s hs hne
    simp [transform_request, hs, StopValue.truthy, hne]
  · intro l hl hne
    simp [transform_request, hl, StopValue.truthy, hne]
  · intro hs
    simp [transform_request, hs, StopValue.truthy]
  · intro hl
    simp [transform_request, hl, StopValue.truthy]

/-- C5 witness: a concrete request with `stop = "END"` translates to
`stop_sequences = ["END"]`, and one with the empty stop string gets no
`stop_sequences` field. -/
theorem stop_sequences_amended_witness :
    ((transform_request {}
        { model := "m", messages := [],
          stop := some (StopValue.str "END") }).stop_sequences
      = some ["END"]) ∧
    ((transform_request {}
        { model := "m", messages := [],
          stop := some (StopValue.str "") }).stop_sequences
      = none) :=
  ⟨(stop_sequences_amended {}
      { model := "m", messages := [],
        stop := some (StopValue.str "END") }).1 "END" rfl (by decide),
   (stop_sequences_amended {}
      { model := "m", messages := [],
        stop := some (StopValue.str "") }).2.2.1 rfl⟩

/-- C6 counterexample: a request whose only message is a system message
with empty content translates to a backend request with no `system`
field — `if system_content:` is a truthiness test, so the empty content
is dropped instead of being placed into `system` as the claim states. -/
theorem system_empty_counterexample :
    (transform_request {}
        { model := "m",
          messages := [{ role := Role.system,
                         content := Content.text "" }] }).system
      ≠ some (Content.text "") := by
  decide

/-- C6 amended: system-role messages are always removed from the backend
message sequence and the remaining messages are copied in original order
with role, content and name unchanged; the content of the last
system-role message becomes the backend `system` field when that content
is truthy (non-empty), and the field is omitted when the last system
content is empty (or no system message exists). -/
theorem system_message_extraction (config : Config)
    (request : ChatCompletionRequest) :
    (transform_request config request).messages
        = request.messages.filter (fun m => !decide (m.role = Role.system)) ∧
    (transform_request config request).system
        = (if optContentTruthy (lastSystemContent request.messages)
           then lastSystemContent request.messages
           else none) := by
  have h := splitMessages_spec request.messages
  constructor
  · simp [transform_request, h]
  · simp [transform_request, h]

/-- The stop-reason table exactly as the specification states it:
`end_turn` and `stop_sequence` map to `stop`, `max_tokens` to `length`,
and every other value to `stop`.  Kept separate from the code-side
`finish_reason_map` so the two can be compared. -/
def spec_finish_reason (r : String) : String :=
  if r = "end_turn" then "stop"
  else if r = "max_tokens" then "length"
  else if r = "stop_sequence" then "stop"
  else "stop"

/-- C8: translated usage satisfies `prompt_tokens` = backend
`input_tokens` (0 when missing), `completion_tokens` = backend
`output_tokens` (0 when missing), and `total_tokens` is their sum —
never taken from the backend directly.  `non_stream_response` reads
nothing of the inbound request except the model name, so the totals
cannot be inferred from request content. -/
theorem usage_accounting (model fallbackId : String) (created : Int)
    (zai_response : ZaiResponse) :
    ((non_stream_response model created fallbackId zai_response).usage.prompt_tokens
        = (zai_response.usage.getD {}).input_tokens.getD 0) ∧
    ((non_stream_response model created fallbackId zai_response).usage.completion_tokens
        = (zai_response.usage.getD {}).output_tokens.getD 0) ∧
    ((non_stream_response model created fallbackId zai_response).usage.total_tokens
        = (non_stream_response model created fallbackId zai_response).usage.prompt_tokens
          + (non_stream_response model created fallbackId zai_response).usage.completion_tokens) := by
  refine ⟨rfl, rfl, rfl⟩

/-- C7 counterexample: on the stream path, a `message_delta` carrying
the empty-string stop reason emits a chunk whose finish_reason is null
rather than the mapped `"stop"` the claim's catch-all row requires —
`if stop_reason:` at proxy.py line 224 is a truthiness test. -/
theorem stream_empty_stop_reason_counterexample :
    (stream_response "c" 0 "m"
        [StreamLine.json
          { type := some "message_delta",
            delta := some (DeltaVal.obj { stop_reason := some "" }) }]
      = [StreamOut.chunk (mkChunk "c" 0 "m" ({}, none))]) ∧
    (mkChunk "c" 0 "m" ({}, none)).choices.map StreamChoice.finish_reason
      ≠ [some "stop"] := by
  exact ⟨rfl, by decide⟩

/-- C7 amended: on the non-stream path every stop-reason value is mapped
by the fixed table (`end_turn`/`stop_sequence` → `stop`, `max_tokens` →
`length`, anything else → `stop`); on the stream path the same table is
applied whenever `message_delta` carries a non-empty stop reason, while
an empty stop reason yields a null finish_reason. -/
theorem finish_reason_table (model chunk_id fallbackId : String)
    (created : Int) (r : String) :
    ((non_stream_response model created fallbackId
        { stop_reason := some r }).choices.map Choice.finish_reason
      = [some (spec_finish_reason r)]) ∧
    (r ≠ "" →
      stream_response chunk_id created model
          [StreamLine.json
            { type := some "message_delta",
              delta := some (DeltaVal.obj { stop_reason := some r }) }]
        = [StreamOut.chunk
            (mkChunk chunk_id created model
              ({}, some (spec_finish_reason r)))]) := by
  constructor
  · simp [non_stream_response, spec_finish_reason, finish_reason_map]
  · intro h
    have he : handle_event
        { type := some "message_delta",
          delta := some (DeltaVal.obj { stop_reason := some r }) }
        = EventResult.emit {} (some (finish_reason_map r)) := by
      simp [handle_event, h]
    simp [stream_response, he, finish_reason_map, spec_finish_reason]

/-- C7 witness: the `max_tokens` stop reason maps to `length` on both
paths at a concrete input. -/
theorem finish_reason_table_witness :
    ((non_stream_response "m" 0 "f"
        { stop_reason := some "max_tokens" }).choices.map Choice.finish_reason
      = [some (spec_finish_reason "max_tokens")]) ∧
    (stream_response "c" 0 "m"
        [StreamLine.json
          { type := some "message_delta",
            delta := some (DeltaVal.obj { stop_reason := some "max_tokens" }) }]
      = [StreamOut.chunk
          (mkChunk "c" 0 "m" ({}, some (spec_finish_reason "max_tokens")))]) :=
  ⟨(finish_reason_table "m" "c" "f" 0 "max_tokens").1,
   (finish_reason_table "m" "c" "f" 0 "max_tokens").2 (by decide)⟩

/-- C1 counterexample: a `content_block_stop` event does emit a chunk —
one with an empty delta and null finish_reason — because it matches none
of the `elif` branches and falls through to the yield at proxy.py line
250; the claim says no chunk is emitted. -/
theorem content_block_stop_counterexample :
    (stream_response "c" 0 "m"
        [StreamLine.json { type := some "content_block_stop" }]
      = [StreamOut.chunk (mkChunk "c" 0 "m" ({}, none))]) ∧
    stream_response "c" 0 "m"
        [StreamLine.json { type := some "content_block_stop" }]
      ≠ [] := by
  exact ⟨rfl, by decide⟩

/-- C1 amended: a `content_block_stop` event and every event whose kind
is not among `content_block_start`, `content_block_delta`,
`message_delta`, `message_stop` each emit exactly one chunk with an
empty delta and null finish_reason (they are not skipped; only
`message_stop` produces no chunk). -/
theorem unhandled_event_emits_empty_chunk (chunk_id : String)
    (created : Int) (model : String) (e : ZaiStreamEvent)
    (rest : List StreamLine)
    (h1 : e.type ≠ some "content_block_start")
    (h2 : e.type ≠ some "content_block_delta")
    (h3 : e.type ≠ some "message_delta")
    (h4 : e.type ≠ some "message_stop") :
    stream_response chunk_id created model (StreamLine.json e :: rest)
      = StreamOut.chunk (mkChunk chunk_id created model ({}, none))
          :: stream_response chunk_id created model rest := by
  have he : handle_event e = EventResult.emit {} none := by
    simp [handle_event, h1, h2, h3, h4]
  simp [stream_response, he]

/-- C1 witness: a concrete `content_block_stop` event emits one chunk
with an empty delta. -/
theorem unhandled_event_emits_empty_chunk_witness :
    stream_response "c" 0 "m"
        [StreamLine.json { type := some "content_block_stop" }]
      = [StreamOut.chunk (mkChunk "c" 0 "m" ({}, none))] := by
  rw [unhandled_event_emits_empty_chunk "c" 0 "m"
        { type := some "content_block_stop" } []
        (by decide) (by decide) (by decide) (by decide)]
  rfl

/-- C2 counterexample: a `message_stop` event does not end the
translated stream — the loop body runs `continue`, not `break` — so a
recognized event on a later line still emits a chunk; the claim says
nothing after a `message_stop` produces any chunk. -/
theorem message_stop_not_terminal_counterexample :
    (stream_response "c" 0 "m"
        [StreamLine.json { type := some "message_stop" },
         StreamLine.json
           { type := some "content_block_delta",
             delta := some (DeltaVal.obj { type := some "text_delta",
                                           text := some "x" }) }]
      = [StreamOut.chunk
          (mkChunk "c" 0 "m" ({ content := some "x" }, none))]) ∧
    stream_response "c" 0 "m"
        [StreamLine.json { type := some "message_stop" },
         StreamLine.json
           { type := some "content_block_delta",
             delta := some (DeltaVal.obj { type := some "text_delta",
                                           text := some "x" }) }]
      ≠ [] := by
  exact ⟨rfl, by decide⟩

/-- C2 amended: no chunk is emitted for the `message_stop` event itself,
but the translator does not terminate there: the remaining lines are
processed exactly as if the `message_stop` line were absent. -/
theorem message_stop_emits_nothing (chunk_id : String) (created : Int)
    (model : String) (e : ZaiStreamEvent) (rest : List StreamLine)
    (h : e.type = some "message_stop") :
    stream_response chunk_id created model (StreamLine.json e :: rest)
      = stream_response chunk_id created model rest := by
  have he : handle_event e = EventResult.skip := by
    simp [handle_event, h]
  simp [stream_response, he]

/-- C2 witness: a concrete stream consisting only of a `message_stop`
event emits nothing. -/
theorem message_stop_emits_nothing_witness :
    stream_response "c" 0 "m"
        [StreamLine.json { type := some "message_stop" }] = [] := by
  rw [message_stop_emits_nothing "c" 0 "m"
        { type := some "message_stop" } [] rfl]
  rfl

/-- C9 counterexample: a line of valid JSON that is not an event object
fails to parse as the expected structured payload, yet it is not
skipped: `zai_chunk.get("type")` at proxy.py line 205 raises
`AttributeError`, which the `except json.JSONDecodeError` at line 252
does not catch, so the generator dies and the valid event after the bad
line is never translated — the emitted frames differ from those of the
stream without the bad line, contradicting the claim. -/
theorem non_object_line_aborts_counterexample :
    (stream_response "c" 0 "m"
        [StreamLine.json { type := some "content_block_start" },
         StreamLine.nonObject,
         StreamLine.json
           { type := some "content_block_delta",
             delta := some (DeltaVal.obj { type := some "text_delta",
                                           text := some "x" }) }]
      = [StreamOut.chunk
          (mkChunk "c" 0 "m"
            ({ role := some "assistant", content := some "" }, none))]) ∧
    stream_response "c" 0 "m"
        [StreamLine.json { type := some "content_block_start" },
         StreamLine.nonObject,
         StreamLine.json
           { type := some "content_block_delta",
             delta := some (DeltaVal.obj { type := some "text_delta",
                                           text := some "x" }) }]
      ≠ stream_response "c" 0 "m"
          [StreamLine.json { type := some "content_block_start" },
           StreamLine.json
             { type := some "content_block_delta",
               delta := some (DeltaVal.obj { type := some "text_delta",
                                             text := some "x" }) }] := by
  exact ⟨rfl, by decide⟩

/-- C9 amended: only a line on which JSON *decoding* raises is skipped
without aborting the stream — the frames emitted with such a line
inserted anywhere are exactly the frames emitted without it.  A line of
valid JSON that is not an event object, or an event whose present
`delta` is null/non-object where the handler reads it, instead aborts
the stream via an uncaught error (pinned by the counterexample; this
theorem proves the transparency half for decode-failure lines over all
surrounding line sequences, including aborting ones). -/
theorem malformed_line_transparent (chunk_id : String) (created : Int)
    (model : String) (before after : List StreamLine) :
    stream_response chunk_id created model
        (before ++ StreamLine.malformed :: after)
      = stream_response chunk_id created model (before ++ after) := by
  induction before with
  | nil => simp [stream_response]
  | cons line rest ih =>
      cases line with
      | blank => simpa [stream_response] using ih
      | done => simp [stream_response]
      | eventHeader => simpa [stream_response] using ih
      | malformed => simpa [stream_response] using ih
      | nonObject => simp [stream_response]
      | json e =>
          simp only [List.cons_append, stream_response]
          cases hp : handle_event e <;> simp [hp, ih]

/-- C10: every chunk emitted during a single stream carries the id fixed
at stream start, and contains exactly one choice whose index is 0. -/
theorem stream_chunk_invariant (chunk_id : String) (created : Int)
    (model : String) (lines : List StreamLine) (c : ChatCompletionChunk)
    (h : StreamOut.chunk c ∈ stream_response chunk_id created model lines) :
    c.id = chunk_id ∧ ∃ choice, c.choices = [choice] ∧ choice.index = 0 := by
  induction lines with
  | nil => simp [stream_response] at h
  | cons line rest ih =>
      cases line with
      | blank => exact ih (by simpa [stream_response] using h)
      | done => simp [stream_response] at h
      | eventHeader => exact ih (by simpa [stream_response] using h)
      | malformed => exact ih (by simpa [stream_response] using h)
      | nonObject => simp [stream_response] at h
      | json e =>
          simp only [stream_response] at h
          cases hp : handle_event e with
          | crash =>
              rw [hp] at h
              simp at h
          | skip =>
              rw [hp] at h
              exact ih h
          | emit d fr =>
              rw [hp] at h
              simp only [List.mem_cons, StreamOut.chunk.injEq] at h
              rcases h with h1 | h2
              · subst h1
                exact ⟨rfl,
                  ⟨{ index := 0, delta := d, finish_reason := fr },
                   rfl, rfl⟩⟩
              · exact ih h2

/-- C10 witness: the chunk emitted for a concrete `content_block_start`
event carries the stream id and a single choice at index 0. -/
theorem stream_chunk_invariant_witness :
    (mkChunk "c" 0 "m"
        ({ role := some "assistant", content := some "" }, none)).id = "c" ∧
    ∃ choice,
      (mkChunk "c" 0 "m"
          ({ role := some "assistant", content := some "" }, none)).choices
        = [choice] ∧ choice.index = 0 :=
  stream_chunk_invariant "c" 0 "m"
    [StreamLine.json { type := some "content_block_start" }]
    (mkChunk "c" 0 "m"
      ({ role := some "assistant", content := some "" }, none))
    (by decide)

end TestdriverProxy
